import Mathlib

/-
Shallow embedding of the Review & Comment domain service of the
book-review-app repository (server/src/services/review.service.ts,
server/src/services/comment.service.ts, server/src/validators/review.validator.ts,
and the Sequelize model declarations in server/src/models).

Storage is modelled as an explicit state value (`DB`) holding the rows of the
Books, Users, Reviews and Comments tables plus the autoincrement counters and
a server clock.  Every service operation is a pure function from the state to
a result paired with the next state; an error result always returns the state
unchanged (the one transaction in deleteReview rolls back on failure, and all
other error paths throw before any write).  Timestamps are modelled as natural
numbers (the ISO-string rendering in the mappers is injective and irrelevant
to the claims).  JavaScript numbers appearing in the validators are modelled
as `Option ℚ` (`none` standing for NaN); JavaScript infinities are not
representable, which affects none of the stated properties.
-/

/-- Row of the Books table (server/src/models/Book.ts), restricted to the
columns the review/comment services read. -/
structure BookRec where
  id : Nat
  title : String
deriving DecidableEq, Repr

/-- Row of the Users table (server/src/models/Users.ts), restricted to the
columns the review service reads. -/
structure UserRec where
  id : Nat
  username : String
deriving DecidableEq, Repr

/-- Row of the Reviews table (server/src/models/Review.ts).  `userId` is
nullable in practice: the User association is declared with
onDelete SET NULL (server/src/models/index.ts), so the owner column of a
stored review can be NULL even though direct creation requires it. -/
structure ReviewRec where
  id : Nat
  bookId : Nat
  userId : Option Nat
  content : String
  rating : Nat
  createdAt : Nat
  updatedAt : Nat
deriving DecidableEq, Repr

/-- Row of the Comments table (server/src/models/Comment.ts): `userId` and
`parentId` are nullable (allowNull true). -/
structure CommentRec where
  id : Nat
  reviewId : Nat
  userId : Option Nat
  content : String
  parentId : Option Nat
  createdAt : Nat
  updatedAt : Nat
deriving DecidableEq, Repr

/-- The relational store consumed by the services, with autoincrement
counters for the two tables the services insert into, and the server clock
used for the createdAt/updatedAt defaults. -/
structure DB where
  books : List BookRec
  users : List UserRec
  reviews : List ReviewRec
  comments : List CommentRec
  nextReviewId : Nat
  nextCommentId : Nat
  now : Nat
deriving DecidableEq, Repr

/-- Service-layer error value: the ApiError class declared in both
review.service.ts and comment.service.ts (statusCode, code, message, and the
optional validation details list used by the comment service). -/
structure FieldMessage where
  field : String
  message : String
deriving DecidableEq, Repr

/-- ApiError as thrown by the services. -/
structure ApiError where
  statusCode : Nat
  code : String
  message : String
  details : List FieldMessage
deriving DecidableEq, Repr

/-- ApiError(404, REVIEW_NOT_FOUND) thrown by getReviewDetail, updateReview,
deleteReview and createComment. -/
def ApiError.reviewNotFound : ApiError :=
  { statusCode := 404, code := "REVIEW_NOT_FOUND"
    message := "指定されたレビューが存在しません。", details := [] }

/-- ApiError(404, BOOK_NOT_FOUND) thrown by createReview. -/
def ApiError.bookNotFound : ApiError :=
  { statusCode := 404, code := "BOOK_NOT_FOUND"
    message := "指定された本が存在しません。", details := [] }

/-- ApiError(403, FORBIDDEN) thrown by updateReview. -/
def ApiError.forbiddenUpdate : ApiError :=
  { statusCode := 403, code := "FORBIDDEN"
    message := "このレビューを更新する権限がありません。", details := [] }

/-- ApiError(403, FORBIDDEN) thrown by deleteReview. -/
def ApiError.forbiddenDelete : ApiError :=
  { statusCode := 403, code := "FORBIDDEN"
    message := "このレビューを削除する権限がありません。", details := [] }

/-- ApiError(409, RELATED_DATA_EXISTS) thrown by deleteReview when a comment
still references the review. -/
def ApiError.relatedDataExists : ApiError :=
  { statusCode := 409, code := "RELATED_DATA_EXISTS"
    message := "このレビューには関連するコメントが存在するため、削除できません。", details := [] }

/-- The ApiError(400, VALIDATION_ERROR) value createComment throws when the
referenced parent comment does not exist — the concrete error value denoted
ParentCommentNotFound in the specification taxonomy. -/
def ApiError.parentCommentNotFound : ApiError :=
  { statusCode := 400, code := "VALIDATION_ERROR", message := "Validation failed"
    details := [{ field := "parentId", message := "指定された親コメントが存在しません。" }] }

/-- The ApiError(400, VALIDATION_ERROR) value createComment throws when the
referenced parent comment belongs to a different review — the concrete error
value denoted ParentCommentWrongReview in the specification taxonomy. -/
def ApiError.parentCommentWrongReview : ApiError :=
  { statusCode := 400, code := "VALIDATION_ERROR", message := "Validation failed"
    details := [{ field := "parentId", message := "親コメントは同じレビューに属している必要があります。" }] }

/-- Review.findByPk. -/
def findReviewByPk (db : DB) (reviewId : Nat) : Option ReviewRec :=
  db.reviews.find? (fun r => r.id == reviewId)

/-- Book.findByPk. -/
def findBookByPk (db : DB) (bookId : Nat) : Option BookRec :=
  db.books.find? (fun b => b.id == bookId)

/-- User.findByPk. -/
def findUserByPk (db : DB) (userId : Nat) : Option UserRec :=
  db.users.find? (fun u => u.id == userId)

/-- Comment.findByPk. -/
def findCommentByPk (db : DB) (commentId : Nat) : Option CommentRec :=
  db.comments.find? (fun c => c.id == commentId)

/-- Comment.findOne({where: {reviewId}}) — the related-comment probe of
deleteReview. -/
def findOneCommentByReview (db : DB) (reviewId : Nat) : Option CommentRec :=
  db.comments.find? (fun c => c.reviewId == reviewId)

/-- JavaScript Number() applied to the nullable owner column:
Number(null) evaluates to 0, so a NULL owner coerces to the numeric value 0.
This is the exact comparison key used by the ownership guards
(review.service.ts lines 192 and 220). -/
def numberOfNullableId (userId : Option Nat) : Nat :=
  userId.getD 0

/-- ReviewDto (types/dto.ts) as produced by reviewModelToDto. -/
structure ReviewDto where
  id : Nat
  bookId : Nat
  userId : Option Nat
  content : String
  rating : Nat
  createdAt : Nat
  updatedAt : Nat
deriving DecidableEq, Repr

/-- reviewModelToDto (review.service.ts): field-for-field projection of the
model row (the String() rendering of timestamps is the identity here). -/
def reviewModelToDto (r : ReviewRec) : ReviewDto :=
  { id := r.id, bookId := r.bookId, userId := r.userId, content := r.content
    rating := r.rating, createdAt := r.createdAt, updatedAt := r.updatedAt }

/-- ReviewDetailDto: the response shape of getReviewDetail, with the
best-effort denormalized bookTitle and username. -/
structure ReviewDetailDto where
  id : Nat
  bookId : Nat
  bookTitle : Option String
  userId : Option Nat
  username : Option String
  content : String
  rating : Nat
  createdAt : Nat
  updatedAt : Nat
deriving DecidableEq, Repr

/-- Service dto for createReview (bookId, content, rating, userId).  `rating`
is optional in the TypeScript type; the Reviews table then enforces
non-null and the 1..5 range (model validate min/max). -/
structure CreateReviewServiceDto where
  bookId : Nat
  content : String
  rating : Option Nat
  userId : Option Nat
deriving DecidableEq, Repr

/-- Service dto for updateReview (reviewId, content, userId). -/
structure UpdateReviewServiceDto where
  reviewId : Nat
  content : String
  userId : Nat
deriving DecidableEq, Repr

/-- Service dto for deleteReview (reviewId, userId). -/
structure DeleteReviewServiceDto where
  reviewId : Nat
  userId : Nat
deriving DecidableEq, Repr

/-- Review.create: inserts a fresh row with the autoincrement id and the
server-clock timestamps.  Mirrors the Sequelize model constraints of
Review.ts: rating is non-nullable and validated to lie in [1, 5]; violating
either surfaces as a (non-business) storage error. -/
def sequelizeCreateReview (db : DB) (bookId : Nat) (userId : Option Nat)
    (content : String) (rating : Option Nat) : Except ApiError (ReviewRec × DB) :=
  match rating with
  | none =>
    Except.error
      { statusCode := 500, code := "SEQUELIZE_VALIDATION_ERROR"
        message := "notNull Violation: Review.rating cannot be null", details := [] }
  | some v =>
    if v < 1 ∨ 5 < v then
      Except.error
        { statusCode := 500, code := "SEQUELIZE_VALIDATION_ERROR"
          message := "Validation error: rating out of range", details := [] }
    else
      let row : ReviewRec :=
        { id := db.nextReviewId, bookId := bookId, userId := userId
          content := content, rating := v, createdAt := db.now, updatedAt := db.now }
      Except.ok (row, { db with reviews := db.reviews ++ [row]
                                nextReviewId := db.nextReviewId + 1 })

/-- createReview (review.service.ts lines 154-174): book-existence check,
then insert, then DTO conversion.  Errors leave the store unchanged. -/
def createReview (s : CreateReviewServiceDto) (db : DB) :
    Except ApiError ReviewDto × DB :=
  match findBookByPk db s.bookId with
  | none => (Except.error ApiError.bookNotFound, db)
  | some _ =>
    match sequelizeCreateReview db s.bookId s.userId s.content s.rating with
    | Except.error e => (Except.error e, db)
    | Except.ok (row, db1) => (Except.ok (reviewModelToDto row), db1)

/-- getReviewDetail (review.service.ts lines 108-146): resolve the review,
404 when absent, else build the detail DTO with the included Book title and
User name (absent when the related record is missing or the FK is null). -/
def getReviewDetail (reviewId : Nat) (db : DB) : Except ApiError ReviewDetailDto :=
  match findReviewByPk db reviewId with
  | none => Except.error ApiError.reviewNotFound
  | some r =>
    Except.ok
      { id := r.id, bookId := r.bookId
        bookTitle := (findBookByPk db r.bookId).map (fun b => b.title)
        userId := r.userId
        username := match r.userId with
          | none => none
          | some u => (findUserByPk db u).map (fun usr => usr.username)
        content := r.content, rating := r.rating
        createdAt := r.createdAt, updatedAt := r.updatedAt }

/-- updateReview (review.service.ts lines 182-202): 404 when the review is
missing; Forbidden when the Number-coerced owner differs from the
Number-coerced actor; otherwise update the content column (and the
auto-managed updatedAt timestamp) of that row and return its DTO. -/
def updateReview (s : UpdateReviewServiceDto) (db : DB) :
    Except ApiError ReviewDto × DB :=
  match findReviewByPk db s.reviewId with
  | none => (Except.error ApiError.reviewNotFound, db)
  | some r =>
    if numberOfNullableId r.userId ≠ s.userId then
      (Except.error ApiError.forbiddenUpdate, db)
    else
      let updated : ReviewRec := { r with content := s.content, updatedAt := db.now }
      (Except.ok (reviewModelToDto updated),
       { db with reviews := db.reviews.map (fun x =>
           if x.id == s.reviewId then { x with content := s.content, updatedAt := db.now }
           else x) })

/-- deleteReview (review.service.ts lines 210-253): 404 when missing,
Forbidden when the Number-coerced owner differs from the actor; otherwise a
single transaction performs the related-comment probe and, when no comment
references the review, destroys the row and commits.  When a comment exists
the transaction is rolled back and RELATED_DATA_EXISTS is thrown, so on every
error path the state is returned unchanged.  The probe and the destroy are
the body of one atomic transaction; the sequential model executes that body
as one step. -/
def deleteReview (s : DeleteReviewServiceDto) (db : DB) :
    Except ApiError Unit × DB :=
  match findReviewByPk db s.reviewId with
  | none => (Except.error ApiError.reviewNotFound, db)
  | some r =>
    if numberOfNullableId r.userId ≠ s.userId then
      (Except.error ApiError.forbiddenDelete, db)
    else
      match findOneCommentByReview db s.reviewId with
      | some _ => (Except.error ApiError.relatedDataExists, db)
      | none =>
        (Except.ok (),
         { db with reviews := db.reviews.filter (fun x => x.id != s.reviewId) })

/-- CommentDto (types/dto.ts) as produced by commentModelToDto
(utils/mapper.ts): field-for-field projection of the model row (the
toISOString rendering of timestamps is injective and modelled as the
identity on the numeric clock). -/
structure CommentDto where
  id : Nat
  content : String
  parentId : Option Nat
  reviewId : Nat
  userId : Option Nat
  createdAt : Nat
  updatedAt : Nat
deriving DecidableEq, Repr

/-- commentModelToDto (utils/mapper.ts). -/
def commentModelToDto (c : CommentRec) : CommentDto :=
  { id := c.id, content := c.content, parentId := c.parentId
    reviewId := c.reviewId, userId := c.userId
    createdAt := c.createdAt, updatedAt := c.updatedAt }

/-- A top-level comment with its attached replies array — the shape
listComments returns (the TypeScript spreads the DTO and adds a replies
field). -/
structure CommentWithReplies where
  comment : CommentDto
  replies : List CommentDto
deriving DecidableEq, Repr

/-- Insertion step for the createdAt-descending ordering of the
Comment.findAll query (ORDER BY createdAt DESC). -/
def insertDescByCreatedAt (a : CommentDto) : List CommentDto → List CommentDto
  | [] => [a]
  | b :: l =>
    if b.createdAt ≤ a.createdAt then a :: b :: l
    else b :: insertDescByCreatedAt a l

/-- ORDER BY createdAt DESC of the Comment.findAll query, as an insertion
sort (the claims depend only on membership, which any stable ordering
preserves). -/
def sortByCreatedAtDesc : List CommentDto → List CommentDto
  | [] => []
  | a :: l => insertDescByCreatedAt a (sortByCreatedAtDesc l)

/-- The WHERE reviewId = ? clause of the Comment.findAll query in
listComments. -/
def commentsOfReview (db : DB) (reviewId : Nat) : List CommentRec :=
  db.comments.filter (fun c => c.reviewId == reviewId)

/-- listComments (comment.service.ts lines 29-48): fetch the review's
comments ordered createdAt-descending, convert to DTOs, keep the top-level
ones (parentId null) and attach to each the comments whose parentId equals
its id.  A pure read: the state is not modified and no error is possible
(in particular there is no review-existence check). -/
def listComments (reviewId : Nat) (db : DB) : List CommentWithReplies :=
  let dtos := sortByCreatedAtDesc ((commentsOfReview db reviewId).map commentModelToDto)
  let topLevel := dtos.filter (fun c => c.parentId == none)
  topLevel.map (fun c =>
    { comment := c, replies := dtos.filter (fun r => r.parentId == some c.id) })

/-- Service dto for createComment (reviewId, content, parentId, userId);
`parentId` defaults to null when absent. -/
structure CreateCommentServiceDto where
  reviewId : Nat
  content : String
  parentId : Option Nat
  userId : Option Nat
deriving DecidableEq, Repr

/-- The parent-comment validation block of createComment (comment.service.ts
lines 66-82): when parentId is present, resolve it with Comment.findByPk and
fail when it is missing or belongs to a different review. -/
def checkParentComment (db : DB) (reviewId : Nat) (parentId : Option Nat) :
    Except ApiError Unit :=
  match parentId with
  | none => Except.ok ()
  | some p =>
    match findCommentByPk db p with
    | none => Except.error ApiError.parentCommentNotFound
    | some parent =>
      if parent.reviewId ≠ reviewId then Except.error ApiError.parentCommentWrongReview
      else Except.ok ()

/-- createComment (comment.service.ts lines 56-90): review-existence check,
parent-comment checks, then Comment.create with the autoincrement id and the
server-clock timestamps.  Errors leave the store unchanged (every throw
happens before the insert). -/
def createComment (s : CreateCommentServiceDto) (db : DB) :
    Except ApiError CommentDto × DB :=
  match findReviewByPk db s.reviewId with
  | none => (Except.error ApiError.reviewNotFound, db)
  | some _ =>
    match checkParentComment db s.reviewId s.parentId with
    | Except.error e => (Except.error e, db)
    | Except.ok _ =>
      let row : CommentRec :=
        { id := db.nextCommentId, reviewId := s.reviewId, userId := s.userId
          content := s.content, parentId := s.parentId
          createdAt := db.now, updatedAt := db.now }
      (Except.ok (commentModelToDto row),
       { db with comments := db.comments ++ [row]
                 nextCommentId := db.nextCommentId + 1 })

/-- A JavaScript number as the validators observe it: `none` is NaN, `some q`
a finite value (JavaScript infinities are not representable here; they
satisfy none of the Number.isInteger guards, exactly like the other
non-integers this type can express). -/
def JsNumber : Type := Option ℚ

instance : DecidableEq JsNumber := by
  unfold JsNumber
  infer_instance

/-- A raw JSON body field as validateCreateReview consumes it: absent
(undefined), a string (carrying its Number() coercion), a number, or some
other value (null, boolean, object — carrying its Number() coercion). -/
inductive JsVal where
  | undef : JsVal
  | str : String → JsNumber → JsVal
  | num : JsNumber → JsVal
  | other : JsNumber → JsVal
deriving DecidableEq

/-- Number(x) for a body field. Number(undefined) is NaN. -/
def JsVal.toNumber : JsVal → JsNumber
  | JsVal.undef => none
  | JsVal.str _ n => n
  | JsVal.num n => n
  | JsVal.other n => n

/-- The `typeof content === 'string' ? content : ''` projection. -/
def JsVal.asStringOrEmpty : JsVal → String
  | JsVal.str s _ => s
  | _ => ""

/-- Number.isInteger on a JavaScript number: false for NaN and for finite
non-integers. -/
def jsIsInteger : JsNumber → Bool
  | none => false
  | some q => q.den == 1

/-- The rational value of a JavaScript number known to be an integer (0 for
NaN; callers only use it after Number.isInteger has succeeded). -/
def jsValue : JsNumber → ℚ
  | none => 0
  | some q => q

/-- ValidationError (review.validator.ts): field, message, optional stable
machine code. -/
structure ValidationError where
  field : String
  message : String
  code : Option String
deriving DecidableEq, Repr

/-- ParseResult (review.validator.ts): discriminated success/failure result
of every validator. -/
inductive ParseResult (α : Type) where
  | ok : α → ParseResult α
  | fail : List ValidationError → ParseResult α
deriving DecidableEq, Repr

/-- Fields named by the errors of a validation result (empty on success). -/
def ParseResult.errorFields {α : Type} : ParseResult α → List String
  | ParseResult.ok _ => []
  | ParseResult.fail errs => errs.map (fun e => e.field)

/-- ValidationMessages.REQUIRED_POSITIVE_INTEGER (validators/messages.ts). -/
def ValidationMessages.REQUIRED_POSITIVE_INTEGER (field : String) : String :=
  field ++ "は1以上の整数で必須項目です。"

/-- ValidationMessages.POSITIVE_INTEGER_REQUIRED (validators/messages.ts). -/
def ValidationMessages.POSITIVE_INTEGER_REQUIRED (field : String) : String :=
  field ++ "は正の整数で指定してください。"

/-- ValidationMessages.REQUIRED_STRING (validators/messages.ts). -/
def ValidationMessages.REQUIRED_STRING (field : String) : String :=
  field ++ "は文字列で必須項目です。"

/-- ValidationMessages.STRING_LENGTH_EXCEEDED (validators/messages.ts). -/
def ValidationMessages.STRING_LENGTH_EXCEEDED (field : String) (max : Nat) : String :=
  field ++ "は" ++ toString max ++ "文字以内で入力してください。"

/-- ValidationMessages.RATING_MUST_BE_1_TO_5 (validators/messages.ts). -/
def ValidationMessages.RATING_MUST_BE_1_TO_5 : String :=
  "ratingは1から5の整数で入力してください。"

/-- The request body of POST /api/reviews as validateCreateReview reads it. -/
structure CreateReviewBody where
  bookId : JsVal
  content : JsVal
  rating : JsVal
deriving DecidableEq

/-- CreateReviewDto: the normalized data validateCreateReview returns on
success. -/
structure CreateReviewDto where
  bookId : ℚ
  content : String
  rating : Option ℚ
deriving DecidableEq

/-- validateCreateReview (review.validator.ts lines 64-114): collects every
field error (bookId, content, rating — in push order) and returns either the
full error list or the normalized data.  The rating branch runs only when
the field is present (`rating !== undefined`). -/
def validateCreateReview (body : CreateReviewBody) : ParseResult CreateReviewDto :=
  let bookIdNum := body.bookId.toNumber
  let bookIdErrors : List ValidationError :=
    if body.bookId = JsVal.undef ∨ jsIsInteger bookIdNum = false ∨ jsValue bookIdNum ≤ 0 then
      [{ field := "bookId"
         message := ValidationMessages.REQUIRED_POSITIVE_INTEGER "bookId", code := none }]
    else []
  let contentStr := body.content.asStringOrEmpty
  let contentErrors : List ValidationError :=
    if contentStr.length = 0 then
      [{ field := "content"
         message := ValidationMessages.REQUIRED_STRING "content", code := none }]
    else if contentStr.length > 1000 then
      [{ field := "content"
         message := ValidationMessages.STRING_LENGTH_EXCEEDED "content" 1000, code := none }]
    else []
  let ratingErrors : List ValidationError :=
    if body.rating ≠ JsVal.undef then
      let ratingNum := body.rating.toNumber
      if jsIsInteger ratingNum = false ∨ jsValue ratingNum < 1 ∨ 5 < jsValue ratingNum then
        [{ field := "rating"
           message := ValidationMessages.RATING_MUST_BE_1_TO_5, code := none }]
      else []
    else []
  let errors := bookIdErrors ++ contentErrors ++ ratingErrors
  if errors ≠ [] then ParseResult.fail errors
  else
    ParseResult.ok
      { bookId := jsValue bookIdNum
        content := contentStr
        rating := if body.rating = JsVal.undef then none else some (jsValue body.rating.toNumber) }

/-- A raw Express query-string value as validateListReviewsQuery consumes it:
absent, the empty string (falsy, Number coercion 0), or a non-empty string
(truthy, carrying its Number() coercion). -/
inductive QueryVal where
  | missing : QueryVal
  | emptyStr : QueryVal
  | str : String → JsNumber → QueryVal
deriving DecidableEq

/-- Number(x) for a query value: Number(undefined) is NaN, Number of the
empty string is 0. -/
def QueryVal.toNumber : QueryVal → JsNumber
  | QueryVal.missing => none
  | QueryVal.emptyStr => some 0
  | QueryVal.str _ n => n

/-- JavaScript truthiness of a query value: every non-empty string is truthy,
absence and the empty string are falsy. -/
def QueryVal.truthy : QueryVal → Bool
  | QueryVal.str _ _ => true
  | _ => false

/-- The JavaScript expression `v || d` on a number v: NaN and 0 are falsy and
yield the default. -/
def jsOrDefault (v : JsNumber) (d : ℚ) : ℚ :=
  match v with
  | none => d
  | some q => if q = 0 then d else q

/-- Normalization of the page query parameter:
Math.max(1, Number(req.query.page) || 1). -/
def normalizePage (v : QueryVal) : ℚ :=
  max 1 (jsOrDefault v.toNumber 1)

/-- Normalization of the limit query parameter:
Math.max(1, Math.min(100, Number(req.query.limit) || 20)). -/
def normalizeLimit (v : QueryVal) : ℚ :=
  max 1 (min 100 (jsOrDefault v.toNumber 20))

/-- The query string of GET /api/reviews as validateListReviewsQuery reads
it. -/
structure ListReviewsQuery where
  page : QueryVal
  limit : QueryVal
  bookId : QueryVal
  userId : QueryVal
deriving DecidableEq

/-- ListReviewsQueryDto: the normalized data validateListReviewsQuery returns
on success. -/
structure ListReviewsQueryDto where
  page : ℚ
  limit : ℚ
  bookId : Option ℚ
  userId : Option ℚ
deriving DecidableEq

/-- validateListReviewsQuery (review.validator.ts lines 305-339): page and
limit are normalized (defaults 1 and 20, page floored at 1, limit clamped to
[1, 100]) and never produce an error; bookId and userId, when truthy, must
coerce to positive integers or a field error is collected. -/
def validateListReviewsQuery (q : ListReviewsQuery) : ParseResult ListReviewsQueryDto :=
  let page := normalizePage q.page
  let limit := normalizeLimit q.limit
  let bookId : Option JsNumber := if q.bookId.truthy then some q.bookId.toNumber else none
  let userId : Option JsNumber := if q.userId.truthy then some q.userId.toNumber else none
  let bookIdErrors : List ValidationError :=
    match bookId with
    | none => []
    | some n =>
      if jsIsInteger n = false ∨ jsValue n ≤ 0 then
        [{ field := "bookId"
           message := ValidationMessages.POSITIVE_INTEGER_REQUIRED "bookId", code := none }]
      else []
  let userIdErrors : List ValidationError :=
    match userId with
    | none => []
    | some n =>
      if jsIsInteger n = false ∨ jsValue n ≤ 0 then
        [{ field := "userId"
           message := ValidationMessages.POSITIVE_INTEGER_REQUIRED "userId", code := none }]
      else []
  let errors := bookIdErrors ++ userIdErrors
  if errors ≠ [] then ParseResult.fail errors
  else
    ParseResult.ok
      { page := page, limit := limit
        bookId := bookId.map jsValue, userId := userId.map jsValue }

/-
Helper lemmas about the list operations the services are built from.
-/

/-- Membership is preserved by the insertion step of the createdAt ordering. -/
theorem mem_insertDescByCreatedAt {x a : CommentDto} {l : List CommentDto} :
    x ∈ insertDescByCreatedAt a l ↔ x = a ∨ x ∈ l := by
  induction l with
  | nil => simp [insertDescByCreatedAt]
  | cons b t ih =>
    simp only [insertDescByCreatedAt]
    split
    · simp
    · simp only [List.mem_cons, ih]
      tauto

/-- Membership is preserved by the createdAt-descending ordering. -/
theorem mem_sortByCreatedAtDesc {x : CommentDto} {l : List CommentDto} :
    x ∈ sortByCreatedAtDesc l ↔ x ∈ l := by
  induction l with
  | nil => simp [sortByCreatedAtDesc]
  | cons a t ih =>
    simp only [sortByCreatedAtDesc, mem_insertDescByCreatedAt, ih, List.mem_cons]

/-- find? commutes with mapping a function that does not change the
predicate. -/
theorem find?_map_pred_comm {α : Type} (f : α → α) (p : α → Bool)
    (h : ∀ x, p (f x) = p x) (l : List α) :
    (l.map f).find? p = (l.find? p).map f := by
  induction l with
  | nil => rfl
  | cons a t ih =>
    simp only [List.map_cons]
    cases hp : p a with
    | true =>
      rw [List.find?_cons_of_pos _ (by rw [h a, hp]), List.find?_cons_of_pos _ hp]
      rfl
    | false =>
      rw [List.find?_cons_of_neg _ (by rw [h a, hp]; simp), List.find?_cons_of_neg _ (by rw [hp]; simp)]
      exact ih

/-- Finding by a duplicate-free key returns exactly the member with that
key. -/
theorem find?_key_of_mem {α : Type} (key : α → Nat) {l : List α}
    (hn : (l.map key).Nodup) {a : α} (ha : a ∈ l) :
    l.find? (fun x => key x == key a) = some a := by
  induction l with
  | nil => cases ha
  | cons b t ih =>
    rw [List.map_cons, List.nodup_cons] at hn
    rcases List.mem_cons.mp ha with h | h
    · subst h
      exact List.find?_cons_of_pos _ (by simp)
    · have hkb : ¬ (key b == key a) = true := by
        simp only [beq_iff_eq]
        intro he
        exact hn.1 (he ▸ List.mem_map_of_mem key h)
      rw [List.find?_cons_of_neg]
      · exact ih hn.2 h
      · exact hkb

/-- C10: listComments performs no review-existence check: for every reviewId
with no stored comments — whether or not any Review with that id exists — it
returns the empty list; by its type it is a pure read that cannot fail with
ReviewNotFound (or any other error). -/
theorem C10_listComments_no_review_check
    (db : DB) (reviewId : Nat)
    (h : ∀ c ∈ db.comments, c.reviewId ≠ reviewId) :
    listComments reviewId db = [] := by
  have hfilter : commentsOfReview db reviewId = [] := by
    simp only [commentsOfReview, List.filter_eq_nil_iff]
    intro c hc
    simp [h c hc]
  simp [listComments, hfilter, sortByCreatedAtDesc]

/-- Witness for C10 at a store that contains no Review row at all and one
comment attached to another review id. -/
theorem C10_witness :
    listComments 1
      { books := [], users := [], reviews := []
        comments := [{ id := 5, reviewId := 2, userId := none, content := "c"
                       parentId := none, createdAt := 0, updatedAt := 0 }]
        nextReviewId := 1, nextCommentId := 6, now := 0 } = [] :=
  C10_listComments_no_review_check _ 1 (by decide)

/-- The row update of updateReview preserves every primary key. -/
theorem update_preserves_id (reviewId : Nat) (content : String) (now : Nat)
    (x : ReviewRec) :
    ((if x.id == reviewId then { x with content := content, updatedAt := now }
      else x) : ReviewRec).id = x.id := by
  split <;> rfl

/-- C9: for every stored review and an actor equal to its owner, updateReview
changes only the content column (and the server-assigned updatedAt): the
updated row found afterwards keeps id, bookId, userId, rating and createdAt,
its content is the new content, and every other review row is untouched; in
particular rating is immutable through this path. -/
theorem C9_updateReview_content_only
    (db : DB) (reviewId actorId : Nat) (content : String) (r : ReviewRec)
    (hfind : findReviewByPk db reviewId = some r)
    (hown : r.userId = some actorId) :
    (updateReview { reviewId := reviewId, content := content, userId := actorId } db).1 =
      Except.ok (reviewModelToDto { r with content := content, updatedAt := db.now }) ∧
    (∃ u, findReviewByPk
        (updateReview { reviewId := reviewId, content := content, userId := actorId } db).2
        reviewId = some u ∧
      u.id = r.id ∧ u.bookId = r.bookId ∧ u.userId = r.userId ∧ u.rating = r.rating ∧
      u.createdAt = r.createdAt ∧ u.content = content ∧ u.updatedAt = db.now) ∧
    (∀ x ∈ db.reviews, x.id ≠ reviewId →
      x ∈ (updateReview { reviewId := reviewId, content := content, userId := actorId } db).2.reviews) := by
  have hid : r.id = reviewId := by
    have := List.find?_some hfind
    simpa [beq_iff_eq] using this
  have hres : updateReview { reviewId := reviewId, content := content, userId := actorId } db =
      (Except.ok (reviewModelToDto { r with content := content, updatedAt := db.now }),
       { db with reviews := db.reviews.map (fun x =>
           if x.id == reviewId then { x with content := content, updatedAt := db.now }
           else x) }) := by
    simp [updateReview, hfind, numberOfNullableId, hown]
  refine ⟨by rw [hres], ?_, ?_⟩
  · refine ⟨{ r with content := content, updatedAt := db.now }, ?_, rfl, rfl, rfl, rfl, rfl, rfl, rfl⟩
    rw [hres]
    show List.find? _ (db.reviews.map _) = _
    rw [find?_map_pred_comm _ _ (fun x => by rw [update_preserves_id]) db.reviews]
    rw [show db.reviews.find? (fun x => x.id == reviewId) = some r from hfind]
    simp [hid]
  · intro x hx hxid
    rw [hres]
    refine List.mem_map.mpr ⟨x, hx, ?_⟩
    simp [hxid]

/-- Witness for C9: the owner (user 4) updates review 9; the rating and the
other columns survive, only content and updatedAt change. -/
theorem C9_witness :
    (updateReview { reviewId := 9, content := "better", userId := 4 }
      { books := [], users := [], reviews :=
          [{ id := 9, bookId := 2, userId := some 4, content := "old", rating := 2
             createdAt := 11, updatedAt := 11 }]
        comments := [], nextReviewId := 10, nextCommentId := 1, now := 42 }).1 =
      Except.ok { id := 9, bookId := 2, userId := some 4, content := "better", rating := 2
                  createdAt := 11, updatedAt := 42 } := by
  have h := C9_updateReview_content_only
    { books := [], users := [], reviews :=
        [{ id := 9, bookId := 2, userId := some 4, content := "old", rating := 2
           createdAt := 11, updatedAt := 11 }]
      comments := [], nextReviewId := 10, nextCommentId := 1, now := 42 }
    9 4 "better"
    { id := 9, bookId := 2, userId := some 4, content := "old", rating := 2
      createdAt := 11, updatedAt := 11 }
    rfl rfl
  exact h.1

/-- C5 (amended): the ownership guards compare JavaScript Number coercions,
under which a NULL owner coerces to 0.  For every stored review and every
actorId whose value differs from the coerced owner value — every actorId
other than the owner when the owner is non-null, and every nonzero actorId
when the owner is null — updateReview and deleteReview both fail with
Forbidden and return the store unchanged. -/
theorem C5_nonowner_forbidden
    (db : DB) (reviewId actorId : Nat) (content : String) (r : ReviewRec)
    (hfind : findReviewByPk db reviewId = some r)
    (hneq : numberOfNullableId r.userId ≠ actorId) :
    updateReview { reviewId := reviewId, content := content, userId := actorId } db =
      (Except.error ApiError.forbiddenUpdate, db) ∧
    deleteReview { reviewId := reviewId, userId := actorId } db =
      (Except.error ApiError.forbiddenDelete, db) := by
  constructor
  · simp [updateReview, hfind, hneq]
  · simp [deleteReview, hfind, hneq]

/-- Witness for C5 (amended): user 2 is not the owner (user 1) of review 1;
both mutations are Forbidden and the store is unchanged. -/
theorem C5_witness :
    updateReview { reviewId := 1, content := "x", userId := 2 }
      { books := [], users := [], reviews :=
          [{ id := 1, bookId := 1, userId := some 1, content := "c", rating := 5
             createdAt := 0, updatedAt := 0 }]
        comments := [], nextReviewId := 2, nextCommentId := 1, now := 7 } =
      (Except.error ApiError.forbiddenUpdate,
       { books := [], users := [], reviews :=
           [{ id := 1, bookId := 1, userId := some 1, content := "c", rating := 5
              createdAt := 0, updatedAt := 0 }]
         comments := [], nextReviewId := 2, nextCommentId := 1, now := 7 }) ∧
    deleteReview { reviewId := 1, userId := 2 }
      { books := [], users := [], reviews :=
          [{ id := 1, bookId := 1, userId := some 1, content := "c", rating := 5
             createdAt := 0, updatedAt := 0 }]
        comments := [], nextReviewId := 2, nextCommentId := 1, now := 7 } =
      (Except.error ApiError.forbiddenDelete,
       { books := [], users := [], reviews :=
           [{ id := 1, bookId := 1, userId := some 1, content := "c", rating := 5
              createdAt := 0, updatedAt := 0 }]
         comments := [], nextReviewId := 2, nextCommentId := 1, now := 7 }) :=
  C5_nonowner_forbidden _ 1 2 "x"
    { id := 1, bookId := 1, userId := some 1, content := "c", rating := 5
      createdAt := 0, updatedAt := 0 }
    rfl (by decide)

/-- Counterexample to C5 as stated: review 1 is stored with a NULL owner, the
actor id 0 is not its owner (no actor is), yet updateReview succeeds — it
does not fail with Forbidden — and the stored content mutates from c to new.
The guard compares Number(null) = 0 with Number(actorId), so actor 0 passes
the ownership check of a null-owner review. -/
theorem C5_counterexample :
    (findReviewByPk
        { books := [], users := [], reviews :=
            [{ id := 1, bookId := 1, userId := none, content := "c", rating := 5
               createdAt := 0, updatedAt := 0 }]
          comments := [], nextReviewId := 2, nextCommentId := 1, now := 7 } 1).map
        (fun r => r.userId) = some none ∧
    updateReview { reviewId := 1, content := "new", userId := 0 }
      { books := [], users := [], reviews :=
          [{ id := 1, bookId := 1, userId := none, content := "c", rating := 5
             createdAt := 0, updatedAt := 0 }]
        comments := [], nextReviewId := 2, nextCommentId := 1, now := 7 } =
      (Except.ok { id := 1, bookId := 1, userId := none, content := "new", rating := 5
                   createdAt := 0, updatedAt := 7 },
       { books := [], users := [], reviews :=
           [{ id := 1, bookId := 1, userId := none, content := "new", rating := 5
              createdAt := 0, updatedAt := 7 }]
         comments := [], nextReviewId := 2, nextCommentId := 1, now := 7 }) := by
  constructor
  · rfl
  · rfl

/-- C1: for every stored review whose owner equals the actor, deleteReview
runs the related-comment probe and the destroy inside one transaction (the
atomic step modelled here): when at least one Comment references the review
it fails with RELATED_DATA_EXISTS and the transaction is rolled back — the
state is returned unchanged and the review is still found afterwards; when no
Comment references it, it succeeds and the review row is removed. -/
theorem C1_deleteReview_comment_guard
    (db : DB) (reviewId actorId : Nat) (r : ReviewRec)
    (hfind : findReviewByPk db reviewId = some r)
    (hown : r.userId = some actorId) :
    ((∃ c ∈ db.comments, c.reviewId = reviewId) →
      deleteReview { reviewId := reviewId, userId := actorId } db =
        (Except.error ApiError.relatedDataExists, db) ∧
      findReviewByPk (deleteReview { reviewId := reviewId, userId := actorId } db).2
        reviewId = some r) ∧
    ((∀ c ∈ db.comments, c.reviewId ≠ reviewId) →
      deleteReview { reviewId := reviewId, userId := actorId } db =
        (Except.ok (),
         { db with reviews := db.reviews.filter (fun x => x.id != reviewId) }) ∧
      findReviewByPk (deleteReview { reviewId := reviewId, userId := actorId } db).2
        reviewId = none) := by
  constructor
  · rintro ⟨c, hc, hcrev⟩
    have hsome : (findOneCommentByReview db reviewId).isSome := by
      refine List.find?_isSome.mpr ⟨c, hc, ?_⟩
      simp [hcrev]
    obtain ⟨c0, hc0⟩ := Option.isSome_iff_exists.mp hsome
    have hres : deleteReview { reviewId := reviewId, userId := actorId } db =
        (Except.error ApiError.relatedDataExists, db) := by
      simp [deleteReview, hfind, numberOfNullableId, hown, hc0]
    exact ⟨hres, by rw [hres]; exact hfind⟩
  · intro hnone
    have hfo : findOneCommentByReview db reviewId = none := by
      refine List.find?_eq_none.mpr ?_
      intro c hc
      simp [hnone c hc]
    have hres : deleteReview { reviewId := reviewId, userId := actorId } db =
        (Except.ok (),
         { db with reviews := db.reviews.filter (fun x => x.id != reviewId) }) := by
      simp [deleteReview, hfind, numberOfNullableId, hown, hfo]
    refine ⟨hres, ?_⟩
    rw [hres]
    refine List.find?_eq_none.mpr ?_
    intro x hx
    have := (List.mem_filter.mp hx).2
    simpa [bne_iff_ne] using this

/-- Witness for C1: with one comment attached, the owner's delete fails with
RELATED_DATA_EXISTS and the review survives; with no comments it succeeds and
the review row is gone. -/
theorem C1_witness :
    deleteReview { reviewId := 1, userId := 4 }
      { books := [], users := [], reviews :=
          [{ id := 1, bookId := 1, userId := some 4, content := "c", rating := 3
             createdAt := 0, updatedAt := 0 }]
        comments := [{ id := 8, reviewId := 1, userId := none, content := "cm"
                       parentId := none, createdAt := 2, updatedAt := 2 }]
        nextReviewId := 2, nextCommentId := 9, now := 5 } =
      (Except.error ApiError.relatedDataExists,
       { books := [], users := [], reviews :=
           [{ id := 1, bookId := 1, userId := some 4, content := "c", rating := 3
              createdAt := 0, updatedAt := 0 }]
         comments := [{ id := 8, reviewId := 1, userId := none, content := "cm"
                        parentId := none, createdAt := 2, updatedAt := 2 }]
         nextReviewId := 2, nextCommentId := 9, now := 5 }) ∧
    deleteReview { reviewId := 1, userId := 4 }
      { books := [], users := [], reviews :=
          [{ id := 1, bookId := 1, userId := some 4, content := "c", rating := 3
             createdAt := 0, updatedAt := 0 }]
        comments := [], nextReviewId := 2, nextCommentId := 9, now := 5 } =
      (Except.ok (),
       { books := [], users := [], reviews := []
         comments := [], nextReviewId := 2, nextCommentId := 9, now := 5 }) := by
  constructor
  · exact (C1_deleteReview_comment_guard
      { books := [], users := [], reviews :=
          [{ id := 1, bookId := 1, userId := some 4, content := "c", rating := 3
             createdAt := 0, updatedAt := 0 }]
        comments := [{ id := 8, reviewId := 1, userId := none, content := "cm"
                       parentId := none, createdAt := 2, updatedAt := 2 }]
        nextReviewId := 2, nextCommentId := 9, now := 5 } 1 4
      { id := 1, bookId := 1, userId := some 4, content := "c", rating := 3
        createdAt := 0, updatedAt := 0 }
      rfl rfl).1
      ⟨{ id := 8, reviewId := 1, userId := none, content := "cm"
         parentId := none, createdAt := 2, updatedAt := 2 }, by decide, rfl⟩ |>.1
  · exact ((C1_deleteReview_comment_guard
      { books := [], users := [], reviews :=
          [{ id := 1, bookId := 1, userId := some 4, content := "c", rating := 3
             createdAt := 0, updatedAt := 0 }]
        comments := [], nextReviewId := 2, nextCommentId := 9, now := 5 } 1 4
      { id := 1, bookId := 1, userId := some 4, content := "c", rating := 3
        createdAt := 0, updatedAt := 0 }
      rfl rfl).2 (by decide)).1

/-- C3: for every comment-create command with a present parentId (against an
existing target review), createComment fails with the ParentCommentNotFound
error value when no Comment with that id exists, and with the
ParentCommentWrongReview error value when the resolved parent belongs to a
different review; in both cases — in particular the wrong-review case — the
state is returned unchanged, so nothing is persisted. -/
theorem C3_createComment_parent_checks
    (db : DB) (s : CreateCommentServiceDto) (p : Nat)
    (hp : s.parentId = some p)
    (hrev : (findReviewByPk db s.reviewId).isSome) :
    (findCommentByPk db p = none →
      createComment s db = (Except.error ApiError.parentCommentNotFound, db)) ∧
    (∀ parent, findCommentByPk db p = some parent → parent.reviewId ≠ s.reviewId →
      createComment s db = (Except.error ApiError.parentCommentWrongReview, db)) := by
  obtain ⟨r, hr⟩ := Option.isSome_iff_exists.mp hrev
  constructor
  · intro hnone
    simp [createComment, hr, checkParentComment, hp, hnone]
  · intro parent hparent hwrong
    simp [createComment, hr, checkParentComment, hp, hparent, hwrong]

/-- Witness for C3: review 1 exists; a comment-create with parentId 7
pointing at a comment of review 2 fails with the wrong-review error and the
store is unchanged (and with a dangling parentId 9 it fails with the
not-found error). -/
theorem C3_witness :
    createComment { reviewId := 1, content := "hi", parentId := some 7, userId := some 3 }
      { books := [], users := []
        reviews :=
          [{ id := 1, bookId := 1, userId := some 3, content := "r1", rating := 4
             createdAt := 0, updatedAt := 0 },
           { id := 2, bookId := 1, userId := some 3, content := "r2", rating := 4
             createdAt := 0, updatedAt := 0 }]
        comments := [{ id := 7, reviewId := 2, userId := some 3, content := "other"
                       parentId := none, createdAt := 1, updatedAt := 1 }]
        nextReviewId := 3, nextCommentId := 8, now := 6 } =
      (Except.error ApiError.parentCommentWrongReview,
       { books := [], users := []
         reviews :=
           [{ id := 1, bookId := 1, userId := some 3, content := "r1", rating := 4
              createdAt := 0, updatedAt := 0 },
            { id := 2, bookId := 1, userId := some 3, content := "r2", rating := 4
              createdAt := 0, updatedAt := 0 }]
         comments := [{ id := 7, reviewId := 2, userId := some 3, content := "other"
                        parentId := none, createdAt := 1, updatedAt := 1 }]
         nextReviewId := 3, nextCommentId := 8, now := 6 }) :=
  (C3_createComment_parent_checks
    { books := [], users := []
      reviews :=
        [{ id := 1, bookId := 1, userId := some 3, content := "r1", rating := 4
           createdAt := 0, updatedAt := 0 },
         { id := 2, bookId := 1, userId := some 3, content := "r2", rating := 4
           createdAt := 0, updatedAt := 0 }]
      comments := [{ id := 7, reviewId := 2, userId := some 3, content := "other"
                     parentId := none, createdAt := 1, updatedAt := 1 }]
      nextReviewId := 3, nextCommentId := 8, now := 6 }
    { reviewId := 1, content := "hi", parentId := some 7, userId := some 3 }
    7 rfl (by decide)).2
    { id := 7, reviewId := 2, userId := some 3, content := "other"
      parentId := none, createdAt := 1, updatedAt := 1 }
    rfl (by decide)

/-- C6: for every valid input — the bookId resolves to a stored Book, the
rating is a present integer in [1, 5], and the store satisfies the
autoincrement invariant (every stored review id is below the next id) —
createReview succeeds and an immediate getReviewDetail on the returned id
returns a detail whose bookId, content and rating equal the inputs, whose id
is the generated autoincrement id, and whose timestamps are the
server-assigned clock value. -/
theorem C6_create_then_getDetail
    (db : DB) (bookId : Nat) (content : String) (rating : Nat) (userId : Option Nat)
    (b : BookRec)
    (hbook : findBookByPk db bookId = some b)
    (hr1 : 1 ≤ rating) (hr5 : rating ≤ 5)
    (hfresh : ∀ r ∈ db.reviews, r.id < db.nextReviewId) :
    ∃ dto db1,
      createReview { bookId := bookId, content := content, rating := some rating
                     userId := userId } db = (Except.ok dto, db1) ∧
      dto.bookId = bookId ∧ dto.content = content ∧ dto.rating = rating ∧
      dto.id = db.nextReviewId ∧ dto.createdAt = db.now ∧ dto.updatedAt = db.now ∧
      ∃ detail, getReviewDetail dto.id db1 = Except.ok detail ∧
        detail.bookId = bookId ∧ detail.content = content ∧ detail.rating = rating ∧
        detail.id = dto.id ∧ detail.createdAt = db.now ∧ detail.updatedAt = db.now := by
  have hrange : ¬ (rating < 1 ∨ 5 < rating) := by omega
  have hcreate :
      createReview
        { bookId := bookId, content := content, rating := some rating, userId := userId }
        db =
      (Except.ok (reviewModelToDto
        { id := db.nextReviewId, bookId := bookId, userId := userId
          content := content, rating := rating, createdAt := db.now, updatedAt := db.now }),
       { db with
           reviews := db.reviews ++
             [{ id := db.nextReviewId, bookId := bookId, userId := userId
                content := content, rating := rating, createdAt := db.now, updatedAt := db.now }]
           nextReviewId := db.nextReviewId + 1 }) := by
    simp [createReview, hbook, sequelizeCreateReview, hrange]
    rw [if_neg (by omega : ¬ (rating = 0 ∨ 5 < rating))]
  refine ⟨_, _, hcreate, rfl, rfl, rfl, rfl, rfl, rfl, ?_⟩
  have hfindnew : findReviewByPk
      { db with
          reviews := db.reviews ++
            [{ id := db.nextReviewId, bookId := bookId, userId := userId
               content := content, rating := rating, createdAt := db.now, updatedAt := db.now }]
          nextReviewId := db.nextReviewId + 1 }
      db.nextReviewId =
      some { id := db.nextReviewId, bookId := bookId, userId := userId
             content := content, rating := rating, createdAt := db.now, updatedAt := db.now } := by
    show List.find? _ (db.reviews ++ _) = _
    rw [List.find?_append]
    have hold : db.reviews.find? (fun r => r.id == db.nextReviewId) = none := by
      refine List.find?_eq_none.mpr ?_
      intro x hx
      have := hfresh x hx
      simp only [beq_iff_eq]
      omega
    rw [hold]
    simp
  simp only [reviewModelToDto]
  rw [getReviewDetail, hfindnew]
  exact ⟨_, rfl, rfl, rfl, rfl, rfl, rfl, rfl⟩

/-- Witness for C6: creating a review on book 1 with rating 5 and immediately
fetching the detail of the returned id round-trips the inputs. -/
theorem C6_witness :
    ∃ dto db1,
      createReview { bookId := 1, content := "nice", rating := some 5, userId := some 2 }
        { books := [{ id := 1, title := "t" }], users := [], reviews := []
          comments := [], nextReviewId := 1, nextCommentId := 1, now := 3 } =
        (Except.ok dto, db1) ∧
      dto.bookId = 1 ∧ dto.content = "nice" ∧ dto.rating = 5 ∧
      dto.id = 1 ∧ dto.createdAt = 3 ∧ dto.updatedAt = 3 ∧
      ∃ detail, getReviewDetail dto.id db1 = Except.ok detail ∧
        detail.bookId = 1 ∧ detail.content = "nice" ∧ detail.rating = 5 ∧
        detail.id = dto.id ∧ detail.createdAt = 3 ∧ detail.updatedAt = 3 :=
  C6_create_then_getDetail
    { books := [{ id := 1, title := "t" }], users := [], reviews := []
      comments := [], nextReviewId := 1, nextCommentId := 1, now := 3 }
    1 "nice" 5 (some 2) { id := 1, title := "t" }
    rfl (by decide) (by decide) (by decide)

/-- C4 (amended): rating is optional in the create-review validator.  For
every request body, the result carries a field-level rating error exactly
when the rating field is present and is not an integer in [1, 5]; when the
field is absent no rating error is produced (and with valid bookId and
content the validator succeeds with rating undefined, contrary to the
required-on-create reading). -/
theorem C4_rating_optional_on_create (body : CreateReviewBody) :
    "rating" ∈ (validateCreateReview body).errorFields ↔
      (body.rating ≠ JsVal.undef ∧
        (jsIsInteger body.rating.toNumber = false ∨
         jsValue body.rating.toNumber < 1 ∨ 5 < jsValue body.rating.toNumber)) := by
  simp only [validateCreateReview]
  split_ifs with h1 h2 h3 h4 h5 <;>
    simp_all [ParseResult.errorFields]

/-- Counterexample to C4 as stated: the body has bookId 1 and content ok but
no rating field, yet validateCreateReview returns success (with rating
undefined) rather than a failure carrying a rating field error. -/
theorem C4_counterexample :
    validateCreateReview
      { bookId := JsVal.num (some 1), content := JsVal.str "ok" none
        rating := JsVal.undef } =
      ParseResult.ok { bookId := 1, content := "ok", rating := none } ∧
    "rating" ∉ (validateCreateReview
      { bookId := JsVal.num (some 1), content := JsVal.str "ok" none
        rating := JsVal.undef }).errorFields := by
  constructor
  · rfl
  · decide

set_option maxHeartbeats 1000000 in
/-- C8: validateListReviewsQuery normalizes pagination — on every successful
parse, page and limit are exactly the normalized values; page and limit never
contribute an error (only bookId and userId can); normalizePage is never
below 1 with default 1 (page 0 behaves as page 1), normalizeLimit is clamped
to [1, 100] with default 20 (limit 500 behaves as limit 100); and a
non-numeric page or limit (NaN coercion) silently becomes the default. -/
theorem C8_pagination_normalization :
    (∀ q d, validateListReviewsQuery q = ParseResult.ok d →
       d.page = normalizePage q.page ∧ d.limit = normalizeLimit q.limit) ∧
    (∀ q f, f ∈ (validateListReviewsQuery q).errorFields →
       f = "bookId" ∨ f = "userId") ∧
    (∀ v, 1 ≤ normalizePage v) ∧
    (∀ v, 1 ≤ normalizeLimit v ∧ normalizeLimit v ≤ 100) ∧
    normalizePage QueryVal.missing = 1 ∧ normalizeLimit QueryVal.missing = 20 ∧
    normalizePage (QueryVal.str "0" (some 0)) = 1 ∧
    normalizeLimit (QueryVal.str "500" (some 500)) = 100 ∧
    (∀ s, normalizePage (QueryVal.str s none) = 1 ∧
       normalizeLimit (QueryVal.str s none) = 20) := by
  refine ⟨?_, ?_, ?_, ?_, by decide, by decide, by decide, by decide, fun s => ⟨rfl, rfl⟩⟩
  · intro q d h
    obtain ⟨page, limit, bookId, userId⟩ := q
    cases bookId <;> cases userId <;>
      simp only [validateListReviewsQuery, QueryVal.truthy, QueryVal.toNumber] at h <;>
      simp at h <;>
      try split_ifs at h <;> simp_all
    all_goals (cases h; exact ⟨rfl, rfl⟩)
  · intro q f hf
    obtain ⟨page, limit, bookId, userId⟩ := q
    cases bookId <;> cases userId <;>
      simp_all [validateListReviewsQuery, ParseResult.errorFields] <;>
      split_ifs at hf <;> simp_all
    all_goals
      first
        | (obtain ⟨a, ⟨-, ha⟩, haf⟩ | ⟨a, ⟨-, ha⟩, haf⟩ := hf <;> subst ha <;>
            first | exact Or.inl haf.symm | exact Or.inr haf.symm)
        | (obtain ⟨a, ⟨-, ha⟩, haf⟩ := hf
           subst ha
           first | exact Or.inl haf.symm | exact Or.inr haf.symm)
  · intro v
    exact le_max_left _ _
  · intro v
    refine ⟨le_max_left _ _, ?_⟩
    rw [normalizeLimit]
    rcases le_or_lt (jsOrDefault v.toNumber 20) 100 with h | h
    · exact max_le (by norm_num) (le_trans (min_le_right _ _) h)
    · exact max_le (by norm_num) (min_le_left _ _)

/-- Witness for C8: the query page 0, limit 500 parses successfully with page
normalized to 1 and limit clamped to 100; and on a query with a non-numeric
bookId, the only error field is bookId (never page or limit). -/
theorem C8_witness :
    (({ page := (1 : ℚ), limit := (100 : ℚ), bookId := none
        userId := none } : ListReviewsQueryDto).page =
      normalizePage (QueryVal.str "0" (some 0)) ∧
     ({ page := (1 : ℚ), limit := (100 : ℚ), bookId := none
        userId := none } : ListReviewsQueryDto).limit =
      normalizeLimit (QueryVal.str "500" (some 500))) ∧
    ("bookId" = "bookId" ∨ "bookId" = "userId") :=
  ⟨C8_pagination_normalization.1
      { page := QueryVal.str "0" (some 0), limit := QueryVal.str "500" (some 500)
        bookId := QueryVal.missing, userId := QueryVal.missing }
      { page := (1 : ℚ), limit := (100 : ℚ), bookId := none, userId := none }
      (by decide),
   C8_pagination_normalization.2.1
      { page := QueryVal.missing, limit := QueryVal.missing
        bookId := QueryVal.str "abc" none, userId := QueryVal.missing }
      "bookId" (by decide)⟩

/-- All comment ids surfaced by a listComments result: the ids of the
top-level elements plus the ids inside every replies array. -/
def outputCommentIds (nodes : List CommentWithReplies) : List Nat :=
  nodes.map (fun n => n.comment.id) ++
    (nodes.map (fun n => n.replies.map (fun r => r.id))).flatten

/-- The ordered DTO list listComments builds before partitioning. -/
def commentDtos (db : DB) (reviewId : Nat) : List CommentDto :=
  sortByCreatedAtDesc ((commentsOfReview db reviewId).map commentModelToDto)

/-- Membership in the ordered DTO list is membership in the review's comment
rows, through the DTO projection. -/
theorem mem_commentDtos {db : DB} {reviewId : Nat} {x : CommentDto} :
    x ∈ commentDtos db reviewId ↔
      ∃ c ∈ commentsOfReview db reviewId, commentModelToDto c = x := by
  rw [commentDtos, mem_sortByCreatedAtDesc, List.mem_map]

/-- Shape of the elements of a listComments result. -/
theorem mem_listComments {db : DB} {reviewId : Nat} {node : CommentWithReplies} :
    node ∈ listComments reviewId db ↔
      ∃ c ∈ commentDtos db reviewId, c.parentId = none ∧
        node = { comment := c
                 replies := (commentDtos db reviewId).filter
                   (fun r => r.parentId == some c.id) } := by
  simp only [listComments, List.mem_map, List.mem_filter, commentDtos]
  constructor
  · rintro ⟨c, ⟨hc, hnone⟩, hnode⟩
    exact ⟨c, hc, by simpa [beq_iff_eq] using hnone, hnode.symm⟩
  · rintro ⟨c, hc, hnone, hnode⟩
    exact ⟨c, ⟨hc, by simp [beq_iff_eq, hnone]⟩, hnode.symm⟩

/-- C2 (amended): for every stored comment set of one review in which every
non-null parentId references a top-level comment of the same review,
listComments returns a partition: every element's replies array contains only
comments whose parentId equals that element's id (this half holds for every
comment set), and the union of all top-level ids plus all reply ids equals
the full comment set for that review.  Without the depth-2 premise the union
half fails: a reply whose parent is itself a reply is stored but surfaced
nowhere. -/
theorem C2_listComments_partition
    (db : DB) (reviewId : Nat)
    (hdepth : ∀ c ∈ commentsOfReview db reviewId, c.parentId = none ∨
       ∃ t ∈ commentsOfReview db reviewId, some t.id = c.parentId ∧ t.parentId = none) :
    (∀ node ∈ listComments reviewId db, node.comment.parentId = none ∧
       ∀ rep ∈ node.replies, rep.parentId = some node.comment.id) ∧
    (∀ i, i ∈ outputCommentIds (listComments reviewId db) ↔
       i ∈ (commentsOfReview db reviewId).map (fun c => c.id)) := by
  constructor
  · intro node hnode
    obtain ⟨c, hc, hnone, hnodeEq⟩ := mem_listComments.mp hnode
    subst hnodeEq
    refine ⟨hnone, ?_⟩
    intro rep hrep
    have := (List.mem_filter.mp hrep).2
    simpa [beq_iff_eq] using this
  · intro i
    constructor
    · intro hi
      rcases List.mem_append.mp hi with hi | hi
      · obtain ⟨n, hn, hid⟩ := List.mem_map.mp hi
        obtain ⟨c, hc, -, hnodeEq⟩ := mem_listComments.mp hn
        obtain ⟨c0, hc0, hdto⟩ := mem_commentDtos.mp hc
        refine List.mem_map.mpr ⟨c0, hc0, ?_⟩
        rw [← hid, hnodeEq]
        rw [← hdto]
        rfl
      · obtain ⟨l, hl, hil⟩ := List.mem_flatten.mp hi
        obtain ⟨n, hn, hln⟩ := List.mem_map.mp hl
        rw [← hln] at hil
        obtain ⟨rep, hrep, hid⟩ := List.mem_map.mp hil
        obtain ⟨c, hc, -, hnodeEq⟩ := mem_listComments.mp hn
        have hrep2 : rep ∈ commentDtos db reviewId := by
          rw [hnodeEq] at hrep
          exact (List.mem_filter.mp hrep).1
        obtain ⟨c0, hc0, hdto⟩ := mem_commentDtos.mp hrep2
        refine List.mem_map.mpr ⟨c0, hc0, ?_⟩
        rw [← hid, ← hdto]
        rfl
    · intro hi
      obtain ⟨c0, hc0, hid⟩ := List.mem_map.mp hi
      have hdto : commentModelToDto c0 ∈ commentDtos db reviewId :=
        mem_commentDtos.mpr ⟨c0, hc0, rfl⟩
      rcases hpar : c0.parentId with _ | p
      · -- top-level comment: its id is in the top part of the output
        refine List.mem_append.mpr (Or.inl ?_)
        refine List.mem_map.mpr ?_
        refine ⟨{ comment := commentModelToDto c0
                  replies := (commentDtos db reviewId).filter
                    (fun r => r.parentId == some (commentModelToDto c0).id) }, ?_, hid⟩
        exact mem_listComments.mpr ⟨commentModelToDto c0, hdto, hpar, rfl⟩
      · -- reply: its id is in the replies of its top-level parent
        have hdis := hdepth c0 hc0
        rw [hpar] at hdis
        rcases hdis with h | ⟨t, ht, htid, htnone⟩
        · cases h
        have htid2 : t.id = p := by
          injection htid.symm with h
          exact h.symm
        have htdto : commentModelToDto t ∈ commentDtos db reviewId :=
          mem_commentDtos.mpr ⟨t, ht, rfl⟩
        refine List.mem_append.mpr (Or.inr ?_)
        refine List.mem_flatten.mpr ?_
        refine ⟨((commentDtos db reviewId).filter
            (fun r => r.parentId == some (commentModelToDto t).id)).map (fun r => r.id), ?_, ?_⟩
        · refine List.mem_map.mpr ?_
          refine ⟨{ comment := commentModelToDto t
                    replies := (commentDtos db reviewId).filter
                      (fun r => r.parentId == some (commentModelToDto t).id) }, ?_, rfl⟩
          exact mem_listComments.mpr ⟨commentModelToDto t, htdto, htnone, rfl⟩
        · refine List.mem_map.mpr ⟨commentModelToDto c0, ?_, hid⟩
          refine List.mem_filter.mpr ⟨hdto, ?_⟩
          show ((commentModelToDto c0).parentId == some (commentModelToDto t).id) = true
          simp [commentModelToDto, hpar, htid2]

/-- Witness for C2 (amended): a review with one top-level comment and one
direct reply; the surfaced ids coincide with the stored ids. -/
theorem C2_witness :
    2 ∈ outputCommentIds (listComments 1
      { books := [], users := [], reviews :=
          [{ id := 1, bookId := 1, userId := some 1, content := "r", rating := 3
             createdAt := 0, updatedAt := 0 }]
        comments :=
          [{ id := 1, reviewId := 1, userId := some 1, content := "top"
             parentId := none, createdAt := 1, updatedAt := 1 },
           { id := 2, reviewId := 1, userId := some 1, content := "reply"
             parentId := some 1, createdAt := 2, updatedAt := 2 }]
        nextReviewId := 2, nextCommentId := 3, now := 9 }) ↔
      2 ∈ (commentsOfReview
      { books := [], users := [], reviews :=
          [{ id := 1, bookId := 1, userId := some 1, content := "r", rating := 3
             createdAt := 0, updatedAt := 0 }]
        comments :=
          [{ id := 1, reviewId := 1, userId := some 1, content := "top"
             parentId := none, createdAt := 1, updatedAt := 1 },
           { id := 2, reviewId := 1, userId := some 1, content := "reply"
             parentId := some 1, createdAt := 2, updatedAt := 2 }]
        nextReviewId := 2, nextCommentId := 3, now := 9 } 1).map (fun c => c.id) :=
  (C2_listComments_partition
    { books := [], users := [], reviews :=
        [{ id := 1, bookId := 1, userId := some 1, content := "r", rating := 3
           createdAt := 0, updatedAt := 0 }]
      comments :=
        [{ id := 1, reviewId := 1, userId := some 1, content := "top"
           parentId := none, createdAt := 1, updatedAt := 1 },
         { id := 2, reviewId := 1, userId := some 1, content := "reply"
           parentId := some 1, createdAt := 2, updatedAt := 2 }]
      nextReviewId := 2, nextCommentId := 3, now := 9 }
    1 (by decide)).2 2

/-- Counterexample to C2 as stated: comment 3 of review 1 is stored (it is a
reply to reply 2, whose parent is comment 1), yet its id is in no replies
array and not among the top-level ids — the surfaced ids miss part of the
stored comment set, so the unconditional partition claim fails. -/
theorem C2_counterexample :
    3 ∈ (commentsOfReview
      { books := [], users := [], reviews :=
          [{ id := 1, bookId := 1, userId := some 1, content := "r", rating := 3
             createdAt := 0, updatedAt := 0 }]
        comments :=
          [{ id := 1, reviewId := 1, userId := some 1, content := "top"
             parentId := none, createdAt := 1, updatedAt := 1 },
           { id := 2, reviewId := 1, userId := some 1, content := "reply"
             parentId := some 1, createdAt := 2, updatedAt := 2 },
           { id := 3, reviewId := 1, userId := some 1, content := "reply to reply"
             parentId := some 2, createdAt := 3, updatedAt := 3 }]
        nextReviewId := 2, nextCommentId := 4, now := 9 } 1).map (fun c => c.id) ∧
    3 ∉ outputCommentIds (listComments 1
      { books := [], users := [], reviews :=
          [{ id := 1, bookId := 1, userId := some 1, content := "r", rating := 3
             createdAt := 0, updatedAt := 0 }]
        comments :=
          [{ id := 1, reviewId := 1, userId := some 1, content := "top"
             parentId := none, createdAt := 1, updatedAt := 1 },
           { id := 2, reviewId := 1, userId := some 1, content := "reply"
             parentId := some 1, createdAt := 2, updatedAt := 2 },
           { id := 3, reviewId := 1, userId := some 1, content := "reply to reply"
             parentId := some 2, createdAt := 3, updatedAt := 3 }]
        nextReviewId := 2, nextCommentId := 4, now := 9 }) := by
  decide

/-- C7: under the primary-key invariant (duplicate-free comment ids), a
comment of the review with non-null parentId appears in the listComments
output — as a member of some replies array — exactly when its parentId
equals the id of a top-level comment of the same review.  A reply whose
parent is itself a reply therefore never surfaces, while listComments, being
a pure read, leaves it in storage. -/
theorem C7_reply_surfaced_iff_parent_top_level
    (db : DB) (reviewId : Nat) (c : CommentRec) (p : Nat)
    (hn : ((commentsOfReview db reviewId).map (fun x => x.id)).Nodup)
    (hc : c ∈ commentsOfReview db reviewId)
    (hp : c.parentId = some p) :
    (∃ node ∈ listComments reviewId db, ∃ rep ∈ node.replies, rep.id = c.id) ↔
    (∃ t ∈ commentsOfReview db reviewId, t.parentId = none ∧ t.id = p) := by
  constructor
  · rintro ⟨node, hnode, rep, hrep, hid⟩
    obtain ⟨cd, hcd, hcdnone, hnodeEq⟩ := mem_listComments.mp hnode
    rw [hnodeEq] at hrep
    have hrepdto := (List.mem_filter.mp hrep).1
    have hreppar : rep.parentId = some cd.id := by
      have := (List.mem_filter.mp hrep).2
      simpa [beq_iff_eq] using this
    obtain ⟨c1, hc1, hdto1⟩ := mem_commentDtos.mp hrepdto
    have hcid : c1.id = c.id := by
      rw [← hid, ← hdto1]
      rfl
    have hceq : c1 = c := List.inj_on_of_nodup_map hn hc1 hc hcid
    have hcpar : c.parentId = some cd.id := by
      rw [← hceq, ← hreppar, ← hdto1]
      rfl
    have hpcd : p = cd.id := by
      rw [hp] at hcpar
      injection hcpar
    obtain ⟨t1, ht1, hdtot⟩ := mem_commentDtos.mp hcd
    refine ⟨t1, ht1, ?_, ?_⟩
    · rw [← hcdnone, ← hdtot]
      rfl
    · rw [hpcd, ← hdtot]
      rfl
  · rintro ⟨t, ht, htnone, htid⟩
    have htdto : commentModelToDto t ∈ commentDtos db reviewId :=
      mem_commentDtos.mpr ⟨t, ht, rfl⟩
    refine ⟨{ comment := commentModelToDto t
              replies := (commentDtos db reviewId).filter
                (fun r => r.parentId == some (commentModelToDto t).id) }, ?_, ?_⟩
    · exact mem_listComments.mpr ⟨commentModelToDto t, htdto, htnone, rfl⟩
    · refine ⟨commentModelToDto c, ?_, rfl⟩
      refine List.mem_filter.mpr ⟨mem_commentDtos.mpr ⟨c, hc, rfl⟩, ?_⟩
      show ((commentModelToDto c).parentId == some (commentModelToDto t).id) = true
      simp [commentModelToDto, hp, htid]

/-- Witness for C7: comment 3 (a reply to reply 2) never surfaces, because no
top-level comment has id 2; formally the surfaced-iff-top-level equivalence
instantiated at comment 3 refutes its appearance. -/
theorem C7_witness :
    ¬ (∃ node ∈ listComments 1
      { books := [], users := [], reviews :=
          [{ id := 1, bookId := 1, userId := some 1, content := "r", rating := 3
             createdAt := 0, updatedAt := 0 }]
        comments :=
          [{ id := 1, reviewId := 1, userId := some 1, content := "top"
             parentId := none, createdAt := 1, updatedAt := 1 },
           { id := 2, reviewId := 1, userId := some 1, content := "reply"
             parentId := some 1, createdAt := 2, updatedAt := 2 },
           { id := 3, reviewId := 1, userId := some 1, content := "reply to reply"
             parentId := some 2, createdAt := 3, updatedAt := 3 }]
        nextReviewId := 2, nextCommentId := 4, now := 9 },
      ∃ rep ∈ node.replies, rep.id = 3) := by
  have h := C7_reply_surfaced_iff_parent_top_level
    { books := [], users := [], reviews :=
        [{ id := 1, bookId := 1, userId := some 1, content := "r", rating := 3
           createdAt := 0, updatedAt := 0 }]
      comments :=
        [{ id := 1, reviewId := 1, userId := some 1, content := "top"
           parentId := none, createdAt := 1, updatedAt := 1 },
         { id := 2, reviewId := 1, userId := some 1, content := "reply"
           parentId := some 1, createdAt := 2, updatedAt := 2 },
         { id := 3, reviewId := 1, userId := some 1, content := "reply to reply"
           parentId := some 2, createdAt := 3, updatedAt := 3 }]
      nextReviewId := 2, nextCommentId := 4, now := 9 }
    1
    { id := 3, reviewId := 1, userId := some 1, content := "reply to reply"
      parentId := some 2, createdAt := 3, updatedAt := 3 }
    2 (by decide) (by decide) rfl
  intro hex
  exact absurd (h.mp hex) (by decide)
